import Mathlib

/-!
Verification of the CCB daemon family against its natural-language
specification.  Python source files are shallowly embedded: strings are
`List Char`, machine floats used only as second counters become `ℚ`,
stateful loops become explicit recursion over event lists, and fallible
paths return explicit outcome types.  Every definition is translated from
the Python source (file and line references in the doc comments); the few
places where code outside the provided tree is needed are modelled from
the spec and marked as such.
-/

namespace CCB

/-- Characters of a string literal, used to state concrete examples. -/
def chars (s : String) : List Char := s.data

/-- CPython `Py_UNICODE_ISSPACE`: the character class used by `str.strip()`
and by `\s` in `re` patterns over `str`.  ASCII whitespace, the C1 file and
record separators, and the common Unicode space code points. -/
def isWSChar (c : Char) : Bool :=
  c = ' ' || c = '\t' || c = '\n' || c = '\r' || c = '\x0b' || c = '\x0c' ||
  c.toNat = 0x1c || c.toNat = 0x1d || c.toNat = 0x1e || c.toNat = 0x1f ||
  c.toNat = 0x85 || c.toNat = 0xa0 || c.toNat = 0x1680 ||
  (0x2000 ≤ c.toNat && c.toNat ≤ 0x200a) ||
  c.toNat = 0x2028 || c.toNat = 0x2029 || c.toNat = 0x202f ||
  c.toNat = 0x205f || c.toNat = 0x3000

/-- Line terminators recognised by CPython `str.splitlines` (besides the
two-character sequence CR LF, which is handled in `splitlinesAux`). -/
def isLineTerm (c : Char) : Bool :=
  c = '\n' || c = '\r' || c = '\x0b' || c = '\x0c' ||
  c.toNat = 0x1c || c.toNat = 0x1d || c.toNat = 0x1e || c.toNat = 0x85 ||
  c.toNat = 0x2028 || c.toNat = 0x2029

/-- Worker for `splitlines`: `acc` holds the current line reversed, and
`sawCR` records that the previous character was a CR whose line break was
already emitted, so that an immediately following LF is swallowed (the CR LF
pair counts as a single break). -/
def splitlinesAux : List Char → List Char → Bool → List (List Char)
  | [], acc, _ => if acc.isEmpty then [] else [acc.reverse]
  | c :: rest, acc, sawCR =>
    if c = '\n' then
      if sawCR then splitlinesAux rest acc false
      else acc.reverse :: splitlinesAux rest [] false
    else if c = '\r' then acc.reverse :: splitlinesAux rest [] true
    else if isLineTerm c then acc.reverse :: splitlinesAux rest [] false
    else splitlinesAux rest (c :: acc) false

/-- CPython `str.splitlines()`: split at line terminators, which are not
kept; a trailing terminator does not produce a final empty line. -/
def splitlines (text : List Char) : List (List Char) :=
  splitlinesAux text [] false

/-- Remove the longest suffix of characters satisfying `p`
(CPython `str.rstrip` with the corresponding character set). -/
def rstripP (p : Char → Bool) (l : List Char) : List Char :=
  (l.reverse.dropWhile p).reverse

/-- `str.rstrip()` — strip trailing whitespace. -/
def rstripWS (l : List Char) : List Char := rstripP isWSChar l

/-- `str.rstrip("\n")` — strip trailing newline characters only. -/
def rstripNl (l : List Char) : List Char := rstripP (fun c => c = '\n') l

/-- A line is "blank" when `line.strip() == ""`, i.e. all characters are
whitespace. -/
def isBlankLine (l : List Char) : Bool := l.all isWSChar

/-- `"\n".join(lines)`. -/
def joinNl (lines : List (List Char)) : List Char :=
  List.intercalate ['\n'] lines

/-- All suffixes of `l` reachable by deleting leading whitespace characters
(including deleting none).  Enumerates the possible extents of a `\s*`
group in a regex match. -/
def wsDrops : List Char → List (List Char)
  | [] => [[]]
  | c :: rest => (c :: rest) :: (if isWSChar c then wsDrops rest else [])

/-- Semantics of `done_line_re(req_id).match(line)` from
src/lib/ccb_protocol.py lines 11 and 31-32: the line matches the pattern
`^\s*CCB_DONE:\s*{re.escape(req_id)}\s*$` — some decomposition
`ws ++ "CCB_DONE:" ++ ws ++ req_id ++ ws` covers the whole line. -/
def matchDoneLine (line reqId : List Char) : Bool :=
  (wsDrops line).any fun s1 =>
    (chars "CCB_DONE:").isPrefixOf s1 &&
    ((wsDrops (s1.drop (chars "CCB_DONE:").length)).any fun s2 =>
      reqId.isPrefixOf s2 && (s2.drop reqId.length).all isWSChar)

/-- src/lib/ccb_protocol.py lines 19-28, `wrap_codex_prompt` (the spec's
`wrap_request_prompt`): right-strip the message and wrap it between the
`CCB_REQ_ID:` anchor line and the instruction block ending in the
`CCB_DONE:` sentinel line. -/
def wrap_codex_prompt (message reqId : List Char) : List Char :=
  chars "CCB_REQ_ID: " ++ reqId ++ chars "\n\n" ++
  rstripWS message ++ chars "\n\n" ++
  chars "IMPORTANT:\n- Reply normally.\n- End your reply with this exact final line (verbatim, on its own line):\n" ++
  chars "CCB_DONE: " ++ reqId ++ chars "\n"

/-- src/lib/ccb_protocol.py lines 35-41, `is_done_text`: right-strip every
line, walk backwards past blank lines, and test the last non-blank line
against the done-line pattern. -/
def is_done_text (text reqId : List Char) : Bool :=
  let lines := (splitlines text).map rstripWS
  match lines.reverse.find? (fun ln => !(isBlankLine ln)) with
  | none => false
  | some ln => matchDoneLine ln reqId

/-- src/lib/ccb_protocol.py lines 44-53, `strip_done_text`: split into
lines (`rstrip("\n")` on each), skip trailing blank lines, drop the final
line (and the skipped blanks) when it matches the done pattern, re-join
with newlines and right-strip the result. -/
def strip_done_text (text reqId : List Char) : List Char :=
  let lines := (splitlines text).map rstripNl
  match (lines.reverse).dropWhile isBlankLine with
  | [] => rstripWS (joinNl lines)
  | lastLine :: restRev =>
    if matchDoneLine lastLine reqId then rstripWS (joinNl restRev.reverse)
    else rstripWS (joinNl lines)

/-! ### Supporting lemmas about the line machinery -/

theorem isLineTerm_eq_false_of_not_ws {c : Char} (h : isWSChar c = false) :
    isLineTerm c = false := by
  revert h
  simp only [isWSChar, isLineTerm, Bool.or_eq_true, Bool.or_eq_false_iff,
    decide_eq_false_iff_not, Bool.and_eq_false_iff, decide_eq_true_eq]
  tauto

theorem splitlinesAux_cons_clean (c : Char) (l acc : List Char)
    (hc : isLineTerm c = false) :
    splitlinesAux (c :: l) acc false = splitlinesAux l (c :: acc) false := by
  have hcn : c ≠ '\n' := by intro e; subst e; simp [isLineTerm] at hc
  have hcr : c ≠ '\r' := by intro e; subst e; simp [isLineTerm] at hc
  simp [splitlinesAux, hc, hcn, hcr]

theorem splitlinesAux_newline (rest acc : List Char) :
    splitlinesAux ('\n' :: rest) acc false =
      acc.reverse :: splitlinesAux rest [] false := by
  simp [splitlinesAux]

theorem splitlinesAux_clean_append (l : List Char)
    (h : ∀ c ∈ l, isLineTerm c = false) (rest acc : List Char) :
    splitlinesAux (l ++ '\n' :: rest) acc false =
      (acc.reverse ++ l) :: splitlinesAux rest [] false := by
  induction l generalizing acc with
  | nil => simpa using splitlinesAux_newline rest acc
  | cons c l ih =>
    have hc : isLineTerm c = false := h c (by simp)
    rw [List.cons_append, splitlinesAux_cons_clean c _ _ hc,
      ih (fun d hd => h d (by simp [hd]))]
    simp

theorem dropWhile_eq_self_of_none {α : Type} (p : α → Bool) (l : List α)
    (h : ∀ c ∈ l, p c = false) : l.dropWhile p = l := by
  cases l with
  | nil => rfl
  | cons c t => simp [List.dropWhile_cons, h c (by simp)]

theorem rstripP_eq_self (p : Char → Bool) (l : List Char)
    (h : ∀ c ∈ l, p c = false) : rstripP p l = l := by
  unfold rstripP
  rw [dropWhile_eq_self_of_none p l.reverse (fun c hc => h c (by
    simpa using hc))]
  simp

theorem wsDrops_self_mem (l : List Char) : l ∈ wsDrops l := by
  cases l <;> simp [wsDrops]

theorem matchDoneLine_exact (r : List Char) :
    matchDoneLine (chars "CCB_DONE: " ++ r) r = true := by
  have hsplit : chars "CCB_DONE: " ++ r = chars "CCB_DONE:" ++ (' ' :: r) := by
    simp [chars]
  rw [matchDoneLine, List.any_eq_true]
  refine ⟨chars "CCB_DONE: " ++ r, wsDrops_self_mem _, ?_⟩
  rw [Bool.and_eq_true, List.isPrefixOf_iff_prefix]
  constructor
  · rw [hsplit]; exact ⟨' ' :: r, rfl⟩
  · rw [List.any_eq_true]
    refine ⟨r, ?_, ?_⟩
    · rw [hsplit, List.drop_left' (by rfl)]
      have : wsDrops (' ' :: r) = (' ' :: r) :: wsDrops r := by
        simp [wsDrops, isWSChar]
      rw [this]
      exact List.mem_cons_of_mem _ (wsDrops_self_mem r)
    · rw [Bool.and_eq_true, List.isPrefixOf_iff_prefix]
      exact ⟨List.prefix_refl r, by simp [List.drop_length]⟩

/-! ### Claim theorems for the request/reply protocol (C1, C2, C3) -/

/-- C1: evaluation of `is_done_text` at the trailing-harness-sentinel input.
The code returns `false` on `"hi\nCCB_DONE: abc\nHARNESS_DONE\n"` because it
never strips the `HARNESS_DONE` sentinel, while the spec (and the module's
own test `test_is_done_text_recognizes_last_nonempty_line`) require `true`;
the remaining conjuncts show the sentinel-free behaviour the claim also
describes (done as last non-empty line, other req id rejected, done line
not last rejected). -/
theorem is_done_text_harness_sentinel_eval :
    is_done_text (chars "hi\nCCB_DONE: abc\nHARNESS_DONE\n") (chars "abc") = false ∧
    is_done_text (chars "hi\nCCB_DONE: abc\n") (chars "abc") = true ∧
    is_done_text (chars "hi\nCCB_DONE: abc\n\n\n") (chars "abc") = true ∧
    is_done_text (chars "hi\nCCB_DONE: other\n") (chars "abc") = false ∧
    is_done_text (chars "CCB_DONE: abc\nhi\n") (chars "abc") = false := by
  decide

/-- C2: evaluation of `strip_done_text`.  With a trailing `HARNESS_DONE`
sentinel the code leaves the text unchanged (the sentinel is not a blank
line and does not match the done pattern), while the spec and the module's
own test `test_strip_done_text_removes_done_line` require the marker, the
done line and the blanks to be stripped.  The last two conjuncts check the
claim's own examples S4 and S5, which the code does satisfy. -/
theorem strip_done_text_harness_sentinel_eval :
    strip_done_text (chars "line1\nline2\nCCB_DONE: abc\nHARNESS_DONE\n") (chars "abc") =
      chars "line1\nline2\nCCB_DONE: abc\nHARNESS_DONE" ∧
    strip_done_text (chars "answer\n\nCCB_DONE: abc\n\n\n") (chars "abc") = chars "answer" ∧
    strip_done_text (chars "answer\nCCB_DONE: otherid\n") (chars "abc") =
      chars "answer\nCCB_DONE: otherid" := by
  decide

/-- C3 counterexample: stripping the done text from the concatenation of the
wrapped prompt with `"some reply\nCCB_DONE: abc\n"` does not give
`"some reply"` — `strip_done_text` removes only the final done line, so the
whole wrapped prompt survives at the front of the result. -/
theorem strip_concat_keeps_prompt :
    strip_done_text
      (wrap_codex_prompt (chars "hello") (chars "abc") ++
        chars "some reply\nCCB_DONE: abc\n") (chars "abc") ≠
      chars "some reply" := by
  decide

/-- C3 amended: the wrapped prompt always contains the line
`CCB_REQ_ID: <req id>` (as a prefix) and ends with exactly
`CCB_DONE: <req id>` plus a newline; and stripping the done text from the
reply tail `"some reply\nCCB_DONE: <req id>\n"` alone yields
`"some reply"`, for every req id made of non-whitespace characters. -/
theorem wrap_prompt_marks_and_strip :
    (∀ m r : List Char,
      (chars "CCB_REQ_ID: " ++ r ++ chars "\n") <+: wrap_codex_prompt m r) ∧
    (∀ m r : List Char,
      (chars "CCB_DONE: " ++ r ++ chars "\n") <:+ wrap_codex_prompt m r) ∧
    (∀ r : List Char, (∀ c ∈ r, isWSChar c = false) →
      strip_done_text (chars "some reply\nCCB_DONE: " ++ r ++ chars "\n") r =
        chars "some reply") := by
  refine ⟨?_, ?_, ?_⟩
  · intro m r
    refine ⟨chars "\n" ++ rstripWS m ++ chars "\n\n" ++
      chars "IMPORTANT:\n- Reply normally.\n- End your reply with this exact final line (verbatim, on its own line):\n" ++
      chars "CCB_DONE: " ++ r ++ chars "\n", ?_⟩
    simp [wrap_codex_prompt, chars]
  · intro m r
    refine ⟨chars "CCB_REQ_ID: " ++ r ++ chars "\n\n" ++ rstripWS m ++ chars "\n\n" ++
      chars "IMPORTANT:\n- Reply normally.\n- End your reply with this exact final line (verbatim, on its own line):\n", ?_⟩
    simp [wrap_codex_prompt, chars]
  · intro r hr
    have hterm : ∀ c ∈ r, isLineTerm c = false :=
      fun c hc => isLineTerm_eq_false_of_not_ws (hr c hc)
    have hline : ∀ c ∈ chars "CCB_DONE: " ++ r, isLineTerm c = false := by
      intro c hc
      rcases List.mem_append.mp hc with h | h
      · fin_cases h <;> decide
      · exact hterm c h
    have htext : chars "some reply\nCCB_DONE: " ++ r ++ chars "\n" =
        chars "some reply" ++ '\n' :: ((chars "CCB_DONE: " ++ r) ++ '\n' :: ([] : List Char)) := by
      simp [chars]
    rw [strip_done_text, htext, splitlines,
      splitlinesAux_clean_append _ (by intro c hc; fin_cases hc <;> decide) _ _,
      splitlinesAux_clean_append _ hline _ _]
    have hnl2 : rstripNl (chars "CCB_DONE: " ++ r) = chars "CCB_DONE: " ++ r := by
      apply rstripP_eq_self
      intro c hc
      rcases List.mem_append.mp hc with h | h
      · fin_cases h <;> decide
      · have := hr c h
        simp only [decide_eq_false_iff_not]
        intro e; subst e; simp [isWSChar] at this
    have hblank2 : isBlankLine (chars "CCB_DONE: " ++ r) = false := by
      simp [isBlankLine, chars, isWSChar]
    simp only [splitlinesAux, List.map, List.reverse_nil, List.nil_append,
      List.map_nil]
    rw [hnl2]
    have : rstripNl (chars "some reply") = chars "some reply" := by decide
    rw [this]
    simp only [List.reverse_cons, List.reverse_nil, List.nil_append,
      List.cons_append, List.dropWhile]
    rw [hblank2]
    simp only [Bool.false_eq_true, if_neg, ite_false]
    rw [matchDoneLine_exact r, if_pos rfl]
    decide

/-- Witness for the amended C3 statement at `m = "hi"`, `r = "abc"`. -/
theorem wrap_prompt_marks_and_strip_witness :
    (∀ c ∈ chars "abc", isWSChar c = false) ∧
    ((chars "CCB_REQ_ID: " ++ chars "abc" ++ chars "\n") <+:
      wrap_codex_prompt (chars "hi") (chars "abc")) ∧
    ((chars "CCB_DONE: " ++ chars "abc" ++ chars "\n") <:+
      wrap_codex_prompt (chars "hi") (chars "abc")) ∧
    strip_done_text (chars "some reply\nCCB_DONE: " ++ chars "abc" ++ chars "\n")
      (chars "abc") = chars "some reply" :=
  ⟨by decide, wrap_prompt_marks_and_strip.1 (chars "hi") (chars "abc"),
    wrap_prompt_marks_and_strip.2.1 (chars "hi") (chars "abc"),
    wrap_prompt_marks_and_strip.2.2 (chars "abc") (by decide)⟩

/-! ### Per-session worker pool (C4)

src/lib/worker_pool.py `BaseSessionWorker.run` and
src/lib/caskd_daemon.py `_SessionWorker.run`: a worker owns one FIFO queue;
each dequeued task is handled inside `try/except Exception/finally`, so the
result is set from the handler or from the exception handler, `done_event`
is always signalled, and the loop continues with the next task. -/

/-- A Python `Exception` as observed by the worker: only `str(exc)` is used. -/
structure PyExc where
  msg : String
deriving DecidableEq, Repr

/-- The fields of a queued task the run loop touches
(src/lib/caskd_daemon.py `_QueuedTask` / src/lib/worker_pool.py
`QueuedTaskLike`): the req id, the completion event and the result slot. -/
structure WTask (R : Type) where
  req_id : String
  done_event : Bool
  result : Option R
deriving DecidableEq

/-- One iteration of the run loop on a dequeued task: `try` the handler,
`except Exception` builds the fallback result, `finally` signals the event.
The handler may fail (`Except`); the exception handler is total, as in
src/lib/caskd_daemon.py lines 119-131 where it directly constructs a
`CaskdResult`. -/
def processTask {R : Type} (handleTask : WTask R → Except PyExc R)
    (handleExc : PyExc → WTask R → R) (t : WTask R) : WTask R :=
  let r := match handleTask t with
    | .ok v => v
    | .error e => handleExc e t
  { t with result := some r, done_event := true }

/-- The run loop over the tasks a worker dequeues, in FIFO order
(src/lib/worker_pool.py lines 33-44). -/
def runWorker {R : Type} (handleTask : WTask R → Except PyExc R)
    (handleExc : PyExc → WTask R → R) : List (WTask R) → List (WTask R)
  | [] => []
  | t :: rest => processTask handleTask handleExc t :: runWorker handleTask handleExc rest

/-- src/lib/ccb_protocol.py `CaskdResult` (re-exported by the caskd daemon). -/
structure CaskdResultM where
  exit_code : Int
  reply : String
  req_id : String
  session_key : String
  log_path : Option String
  anchor_seen : Bool
  done_seen : Bool
  fallback_scan : Bool
  anchor_ms : Option Int := none
  done_ms : Option Int := none
deriving DecidableEq, Repr

/-- src/lib/caskd_daemon.py lines 119-130: the synthetic failure result the
caskd session worker builds when `_handle_task` raises. -/
def caskdExcResult (sessionKey : String) (e : PyExc) (t : WTask CaskdResultM) :
    CaskdResultM :=
  { exit_code := 1, reply := e.msg, req_id := t.req_id,
    session_key := sessionKey, log_path := none, anchor_seen := false,
    done_seen := false, fallback_scan := false }

/-- C4: every task a session worker dequeues ends with its result set and
its done event signalled — also when the handler raises, in which case the
result is the exception handler's synthetic result (for caskd: exit code 1
carrying `str(exc)`) — and the worker survives to process all subsequent
tasks in FIFO order (same number of outputs, same req ids, in order). -/
theorem worker_sets_result_and_survives {R : Type}
    (handleTask : WTask R → Except PyExc R) (handleExc : PyExc → WTask R → R)
    (tasks : List (WTask R)) :
    (runWorker handleTask handleExc tasks).length = tasks.length ∧
    (∀ t ∈ runWorker handleTask handleExc tasks,
      t.done_event = true ∧ t.result.isSome) ∧
    (runWorker handleTask handleExc tasks).map (fun t => t.req_id) =
      tasks.map (fun t => t.req_id) ∧
    (∀ (cT : WTask CaskdResultM → Except PyExc CaskdResultM)
      (t : WTask CaskdResultM) (e : PyExc), cT t = .error e →
      ∀ sk, processTask cT (caskdExcResult sk) t =
        { t with result := some (caskdExcResult sk e t), done_event := true } ∧
        (caskdExcResult sk e t).exit_code = 1 ∧
        (caskdExcResult sk e t).reply = e.msg) := by
  refine ⟨?_, ?_, ?_, ?_⟩
  · induction tasks with
    | nil => rfl
    | cons t rest ih => simp [runWorker, ih]
  · intro t ht
    induction tasks with
    | nil => simp [runWorker] at ht
    | cons hd rest ih =>
      rcases (by simpa [runWorker] using ht : _ ∨ _) with h | h
      · subst h; simp [processTask]
      · exact ih (by simpa [runWorker] using h)
  · induction tasks with
    | nil => rfl
    | cons t rest ih => simp [runWorker, processTask, ih]
  · intro cT t e he sk
    refine ⟨?_, rfl, rfl⟩
    simp [processTask, he]

/-- Witness for C4: a two-task queue where the first handler raises and the
second succeeds; both outputs carry a result and a signalled event, in
order. -/
theorem worker_sets_result_and_survives_witness :
    (runWorker
        (fun t => if t.req_id = "a" then .error ⟨"boom"⟩ else
          .ok ({ exit_code := 0, reply := "ok", req_id := t.req_id,
                 session_key := "k", log_path := none, anchor_seen := true,
                 done_seen := true, fallback_scan := false } : CaskdResultM))
        (caskdExcResult "k")
        [⟨"a", false, none⟩, ⟨"b", false, none⟩]).length = 2 ∧
    (∀ t ∈ runWorker
        (fun t => if t.req_id = "a" then .error ⟨"boom"⟩ else
          .ok ({ exit_code := 0, reply := "ok", req_id := t.req_id,
                 session_key := "k", log_path := none, anchor_seen := true,
                 done_seen := true, fallback_scan := false } : CaskdResultM))
        (caskdExcResult "k")
        [⟨"a", false, none⟩, ⟨"b", false, none⟩],
      t.done_event = true ∧ t.result.isSome) := by
  refine ⟨?_, ?_⟩
  · exact (worker_sets_result_and_survives _ _ _).1
  · exact (worker_sets_result_and_survives _ _ _).2.1

/-! ### Daemon connection handler: authentication gate (C5)

src/lib/askd_server.py `Handler.handle` (lines 101-145) and
src/lib/caskd_daemon.py `Handler.handle` (lines 546-594).  A connection
thread reads one JSON line; the fields the gate inspects are `token`,
`type` and `id` (`msg.get` returns `None` when absent, hence `Option`).
Payload fields of a request are irrelevant to the gate and are not
modelled. -/

structure WireMessage where
  token : Option String
  mtype : Option String
  mid : Option String
deriving DecidableEq, Repr

/-- A response line as far as the claims inspect it: its `type`,
`exit_code`, `reply` and echoed `id` fields. -/
structure WireResponse where
  rtype : String
  exit_code : Int
  reply : String
  rid : Option String
deriving DecidableEq, Repr

/-- Observable steps a connection handler takes after parsing a message. -/
inductive HandlerStep
  | wroteResponse (r : WireResponse)
  | startedShutdownThread
  | dispatchedRequest
deriving DecidableEq, Repr

/-- src/lib/askd_server.py lines 112-132: the provider-parametric gate.
Token mismatch answers `Unauthorized` and returns; then ping, shutdown and
request types are dispatched in that order; anything else is an
`Invalid request`. -/
def handlerGate (pfx serverToken : String) (msg : WireMessage) :
    List HandlerStep :=
  if msg.token ≠ some serverToken then
    [.wroteResponse ⟨pfx ++ ".response", 1, "Unauthorized", msg.mid⟩]
  else if msg.mtype = some (pfx ++ ".ping") then
    [.wroteResponse ⟨pfx ++ ".pong", 0, "OK", msg.mid⟩]
  else if msg.mtype = some (pfx ++ ".shutdown") then
    [.wroteResponse ⟨pfx ++ ".response", 0, "OK", msg.mid⟩, .startedShutdownThread]
  else if msg.mtype ≠ some (pfx ++ ".request") then
    [.wroteResponse ⟨pfx ++ ".response", 1, "Invalid request", msg.mid⟩]
  else [.dispatchedRequest]

/-- src/lib/caskd_daemon.py lines 559-577: the same gate with the
protocol strings written out for the `cask` prefix. -/
def caskdHandlerGate (serverToken : String) (msg : WireMessage) :
    List HandlerStep :=
  if msg.token ≠ some serverToken then
    [.wroteResponse ⟨"cask.response", 1, "Unauthorized", msg.mid⟩]
  else if msg.mtype = some "cask.ping" then
    [.wroteResponse ⟨"cask.pong", 0, "OK", msg.mid⟩]
  else if msg.mtype = some "cask.shutdown" then
    [.wroteResponse ⟨"cask.response", 0, "OK", msg.mid⟩, .startedShutdownThread]
  else if msg.mtype ≠ some "cask.request" then
    [.wroteResponse ⟨"cask.response", 1, "Invalid request", msg.mid⟩]
  else [.dispatchedRequest]

/-- A threaded server handles every connection independently: the steps of
a sequence of connections are the per-connection steps, in order. -/
def serveConnections (pfx serverToken : String) (msgs : List WireMessage) :
    List (List HandlerStep) :=
  msgs.map (handlerGate pfx serverToken)

/-- C5: a message whose token differs from the server's token (including a
missing token) is answered with `exit_code = 1`, `reply = "Unauthorized"`
and nothing else happens — no dispatch to ping, shutdown or the request
handler, and no shutdown is initiated — in both the provider-parametric
server and caskd; and the server goes on serving the remaining
connections unchanged. -/
theorem unauthorized_rejected_without_processing
    (pfx serverToken : String) (msg : WireMessage)
    (h : msg.token ≠ some serverToken) :
    handlerGate pfx serverToken msg =
      [.wroteResponse ⟨pfx ++ ".response", 1, "Unauthorized", msg.mid⟩] ∧
    caskdHandlerGate serverToken msg =
      [.wroteResponse ⟨"cask.response", 1, "Unauthorized", msg.mid⟩] ∧
    HandlerStep.dispatchedRequest ∉ handlerGate pfx serverToken msg ∧
    HandlerStep.startedShutdownThread ∉ handlerGate pfx serverToken msg ∧
    HandlerStep.dispatchedRequest ∉ caskdHandlerGate serverToken msg ∧
    HandlerStep.startedShutdownThread ∉ caskdHandlerGate serverToken msg ∧
    (∀ before after : List WireMessage,
      serveConnections pfx serverToken (before ++ msg :: after) =
        serveConnections pfx serverToken before ++
          handlerGate pfx serverToken msg :: serveConnections pfx serverToken after) := by
  have h1 : handlerGate pfx serverToken msg =
      [.wroteResponse ⟨pfx ++ ".response", 1, "Unauthorized", msg.mid⟩] := by
    simp [handlerGate, h]
  have h2 : caskdHandlerGate serverToken msg =
      [.wroteResponse ⟨"cask.response", 1, "Unauthorized", msg.mid⟩] := by
    simp [caskdHandlerGate, h]
  refine ⟨h1, h2, ?_, ?_, ?_, ?_, ?_⟩
  · rw [h1]; simp
  · rw [h1]; simp
  · rw [h2]; simp
  · rw [h2]; simp
  · intro before after
    simp [serveConnections]

/-- Witness for C5 at the spec's scenario S1: `token = "WRONG"` against a
server token `"secret"`. -/
theorem unauthorized_rejected_without_processing_witness :
    (some "WRONG" ≠ some "secret") ∧
    handlerGate "ask" "secret" ⟨some "WRONG", some "ask.request", some "c1"⟩ =
      [.wroteResponse ⟨"ask.response", 1, "Unauthorized", some "c1"⟩] :=
  ⟨by decide,
    (unauthorized_rejected_without_processing "ask" "secret"
      ⟨some "WRONG", some "ask.request", some "c1"⟩ (by decide)).1⟩

/-! ### Submitter wait and timeout response (C6)

src/lib/askd/daemon.py lines 186-197 (`UnifiedAskDaemon._handle_request`)
and src/lib/caskd_daemon.py lines 589-594 (`Handler.handle`).  The
connection thread submits the task and blocks on `task.done_event.wait`;
`None` means an unbounded wait.  Timeouts are modelled as exact rational
second counts. -/

/-- src/lib/askd/daemon.py line 187:
`wait_timeout = None if float(request.timeout_s) < 0.0 else (float(request.timeout_s) + 5.0)`. -/
def askdWaitTimeout (timeout_s : ℚ) : Option ℚ :=
  if timeout_s < 0 then none else some (timeout_s + 5)

/-- src/lib/caskd_daemon.py line 590:
`task.done_event.wait(timeout=req.timeout_s + 5.0)` — always bounded. -/
def caskdWaitTimeout (timeout_s : ℚ) : Option ℚ :=
  some (timeout_s + 5)

/-- Semantics of `threading.Event.wait(timeout)` followed by reading
`task.result`: with an unbounded wait the result is seen whenever the
worker ever sets it; with a bounded wait it is seen iff it is set within
`max bound 0` seconds (a non-positive bound returns at once).
`resultSetAt = none` means the worker never sets the result. -/
def waitSeesResult (bound : Option ℚ) (resultSetAt : Option ℚ) : Bool :=
  match resultSetAt, bound with
  | none, _ => false
  | some _, none => true
  | some s, some b => decide (s ≤ max b 0)

/-- The response the unified daemon's connection thread produces from the
wait: the task result if it was observed, else `exit_code = 2` with an
empty reply (src/lib/askd/daemon.py lines 189-197). -/
def askdRequestResponse (clientId : String) (timeout_s : ℚ)
    (resultSetAt : Option ℚ) (res : CaskdResultM) : WireResponse :=
  if waitSeesResult (askdWaitTimeout timeout_s) resultSetAt then
    ⟨"ask.response", res.exit_code, res.reply, some clientId⟩
  else ⟨"ask.response", 2, "", some clientId⟩

/-- Same for caskd (src/lib/caskd_daemon.py lines 589-594). -/
def caskdRequestResponse (clientId : String) (timeout_s : ℚ)
    (resultSetAt : Option ℚ) (res : CaskdResultM) : WireResponse :=
  if waitSeesResult (caskdWaitTimeout timeout_s) resultSetAt then
    ⟨"cask.response", res.exit_code, res.reply, some clientId⟩
  else ⟨"cask.response", 2, "", some clientId⟩

/-- C6 counterexample: in caskd a negative `timeout_s` does NOT mean an
unbounded wait.  At `timeout_s = -10` the wait bound is `-10 + 5 = -5`
(so the wait returns immediately), not `None`: a result the worker sets
one second in is missed and the daemon answers `exit_code = 2, reply ""`,
refuting the claim's "negative timeout_s means the wait has no bound" for
every daemon. -/
theorem caskd_negative_timeout_is_bounded :
    caskdWaitTimeout (-10) ≠ none ∧
    caskdWaitTimeout (-10) = some (-5) ∧
    caskdRequestResponse "c1" (-10) (some 1)
      ⟨0, "late reply", "r", "k", none, true, true, false, none, none⟩ =
      ⟨"cask.response", 2, "", some "c1"⟩ ∧
    askdRequestResponse "c1" (-10) (some 1)
      ⟨0, "late reply", "r", "k", none, true, true, false, none, none⟩ =
      ⟨"ask.response", 0, "late reply", some "c1"⟩ := by
  refine ⟨by simp [caskdWaitTimeout], by norm_num [caskdWaitTimeout], ?_, ?_⟩
  · have hb : waitSeesResult (caskdWaitTimeout (-10)) (some 1) = false := by
      simp [caskdWaitTimeout, waitSeesResult]
      norm_num
    simp [caskdRequestResponse, hb]
  · have hb : waitSeesResult (askdWaitTimeout (-10)) (some 1) = true := by
      norm_num [askdWaitTimeout, waitSeesResult]
    simp [askdRequestResponse, hb]

/-- C6 amended: the unified daemon waits `timeout_s + 5` seconds when
`timeout_s ≥ 0` and without bound when `timeout_s < 0` (so a result that
is ever produced is always observed); caskd always waits `timeout_s + 5`
seconds; and in both daemons, whenever the result is still unset when the
wait ends, the response is `exit_code = 2` with an empty reply. -/
theorem submitter_wait_and_timeout_response :
    (∀ t : ℚ, 0 ≤ t → askdWaitTimeout t = some (t + 5)) ∧
    (∀ t : ℚ, t < 0 → askdWaitTimeout t = none) ∧
    (∀ t : ℚ, t < 0 → ∀ s : ℚ, ∀ res : CaskdResultM, ∀ cid,
      askdRequestResponse cid t (some s) res =
        ⟨"ask.response", res.exit_code, res.reply, some cid⟩) ∧
    (∀ t : ℚ, caskdWaitTimeout t = some (t + 5)) ∧
    (∀ t : ℚ, ∀ cid, ∀ res : CaskdResultM,
      askdRequestResponse cid t none res = ⟨"ask.response", 2, "", some cid⟩ ∧
      caskdRequestResponse cid t none res = ⟨"cask.response", 2, "", some cid⟩) ∧
    (∀ t s : ℚ, ∀ cid, ∀ res : CaskdResultM, max (t + 5) 0 < s →
      caskdRequestResponse cid t (some s) res = ⟨"cask.response", 2, "", some cid⟩) := by
  refine ⟨?_, ?_, ?_, fun t => rfl, ?_, ?_⟩
  · intro t ht
    simp [askdWaitTimeout, not_lt.mpr ht]
  · intro t ht
    simp [askdWaitTimeout, ht]
  · intro t ht s res cid
    simp [askdRequestResponse, askdWaitTimeout, ht, waitSeesResult]
  · intro t cid res
    constructor <;> rfl
  · intro t s cid res hs
    simp [caskdRequestResponse, caskdWaitTimeout, waitSeesResult, not_le.mpr hs]

/-- Witness for the amended C6 at `timeout_s = 3` (bounded, result unset →
timeout response) and `timeout_s = -1` (unbounded in the unified daemon). -/
theorem submitter_wait_and_timeout_response_witness :
    ((0 : ℚ) ≤ 3) ∧ ((-1 : ℚ) < 0) ∧
    askdWaitTimeout 3 = some 8 ∧ askdWaitTimeout (-1) = none ∧
    askdRequestResponse "c" 3 none
      ⟨0, "x", "r", "k", none, true, true, false, none, none⟩ =
      ⟨"ask.response", 2, "", some "c"⟩ := by
  refine ⟨by norm_num, by norm_num, ?_, ?_, ?_⟩
  · have := (submitter_wait_and_timeout_response).1 3 (by norm_num)
    rw [this]; norm_num
  · exact (submitter_wait_and_timeout_response).2.1 (-1) (by norm_num)
  · exact ((submitter_wait_and_timeout_response).2.2.2.2.1 3 "c"
      ⟨0, "x", "r", "k", none, true, true, false, none, none⟩).1

/-! ### Daemon start-up: single-instance lock and the parent monitor
(C7, C10)

src/lib/askd_server.py `AskDaemonServer.serve_forever` (lines 90-244) and
src/lib/caskd_daemon.py `CaskdServer.serve_forever` (lines 537-680).
`ProviderLock` itself is not under src/.  Modelled from the spec:
`ProviderLock.try_acquire` is a non-blocking advisory file-lock acquire
that returns false when another process already holds the lock; it is
represented by the boolean `lockAcquired` input.  The rest is the
control flow of `serve_forever` itself. -/

/-- Externally observable milestones of `serve_forever`. -/
inductive ServeEvent
  | boundListener
  | wroteStateFile
  | enteredServeLoop
deriving DecidableEq, Repr

structure ServeOutcome where
  exitCode : Option Int
  raisedNameError : Bool
  events : List ServeEvent
deriving DecidableEq, Repr

/-- src/lib/askd_server.py lines 84-88: the server's parent pid is the
constructor argument if given, else the value parsed from
`CCB_PARENT_PID`, else `None`; line 225 coerces it with
`int(self.parent_pid or 0)`. -/
def effectiveParentPid (ctorArg envPid : Option Nat) : Nat :=
  match ctorArg with
  | some p => p
  | none => match envPid with
    | some p => p
    | none => 0

/-- src/lib/askd_server.py `serve_forever`: return 2 when the non-blocking
lock acquire fails, before any listener is created (lines 93-95);
otherwise bind the listener (line 179), start the idle monitor, and start
the `_parent_monitor` thread (line 244) — a statement that executes
unconditionally although the function `_parent_monitor` is only defined
inside `if getattr(httpd, "parent_pid", 0):` (lines 221-242).  With
`parent_pid = 0` the name is an unassigned local, so the thread start
raises `UnboundLocalError` (a subclass of `NameError`), which nothing in
`serve_forever` catches; the state file write (line 246) and the serve
loop (line 253) are never reached.  With a nonzero parent pid the run
proceeds: state written, serve loop entered, return 0 on shutdown. -/
def askdServeForever (lockAcquired : Bool) (parentPid : Nat) : ServeOutcome :=
  if !lockAcquired then
    { exitCode := some 2, raisedNameError := false, events := [] }
  else if parentPid = 0 then
    { exitCode := none, raisedNameError := true,
      events := [.boundListener] }
  else
    { exitCode := some 0, raisedNameError := false,
      events := [.boundListener, .wroteStateFile, .enteredServeLoop] }

/-- src/lib/caskd_daemon.py `serve_forever` (lines 537-680): same lock
gate; no parent monitor exists, so the winning path always binds, writes
state and serves. -/
def caskdServeForever (lockAcquired : Bool) : ServeOutcome :=
  if !lockAcquired then
    { exitCode := some 2, raisedNameError := false, events := [] }
  else
    { exitCode := some 0, raisedNameError := false,
      events := [.boundListener, .wroteStateFile, .enteredServeLoop] }

/-- C7: when the non-blocking file lock is already held by another
process, `serve_forever` returns exit code 2 without binding a listener
and without touching the daemon state file, in both daemons and for every
parent-pid configuration. -/
theorem losing_lock_exits_2_without_state (parentPid : Nat) :
    askdServeForever false parentPid =
      { exitCode := some 2, raisedNameError := false, events := [] } ∧
    caskdServeForever false =
      { exitCode := some 2, raisedNameError := false, events := [] } ∧
    ServeEvent.boundListener ∉ (askdServeForever false parentPid).events ∧
    ServeEvent.wroteStateFile ∉ (askdServeForever false parentPid).events ∧
    ServeEvent.boundListener ∉ (caskdServeForever false).events ∧
    ServeEvent.wroteStateFile ∉ (caskdServeForever false).events := by
  refine ⟨rfl, rfl, ?_, ?_, ?_, ?_⟩ <;> simp [askdServeForever, caskdServeForever]

/-- Witness for C7 at `parentPid = 7`. -/
theorem losing_lock_exits_2_without_state_witness :
    askdServeForever false 7 =
      { exitCode := some 2, raisedNameError := false, events := [] } ∧
    caskdServeForever false =
      { exitCode := some 2, raisedNameError := false, events := [] } :=
  ⟨(losing_lock_exits_2_without_state 7).1, (losing_lock_exits_2_without_state 7).2.1⟩

/-- C10: with no parent pid configured (constructor argument `None`,
`CCB_PARENT_PID` unset) the effective parent pid is 0, and
`serve_forever` on the winning-lock path raises the unhandled
`NameError` after binding the listener but before writing the state file;
the request-serving loop is never entered. -/
theorem standalone_serve_raises_nameerror :
    effectiveParentPid none none = 0 ∧
    askdServeForever true (effectiveParentPid none none) =
      { exitCode := none, raisedNameError := true, events := [.boundListener] } ∧
    ServeEvent.boundListener ∈ (askdServeForever true 0).events ∧
    ServeEvent.wroteStateFile ∉ (askdServeForever true 0).events ∧
    ServeEvent.enteredServeLoop ∉ (askdServeForever true 0).events := by
  refine ⟨rfl, rfl, ?_, ?_, ?_⟩ <;> simp [askdServeForever]

/-! ### RPC client: deadline-bounded receive (C8)

src/lib/askd_rpc.py `_recv_with_deadline` (lines 23-60).  The wall clock
is an explicit rational `now`; each pass through the `while` loop performs
at most one `sock.recv`, modelled by consuming one `RecvEvent`.  A recv
with timeout `tmo` either raises `socket.timeout` after blocking the full
`tmo` seconds, or returns a chunk after `dur` seconds; the socket contract
caps the observable duration at the requested timeout
(`min (max dur 0) tmo`).  Bytes are `Nat` values; `10` is `\n`. -/

inductive RecvEvent
  | timedOut
  | delivered (dur : ℚ) (chunk : List Nat)
deriving DecidableEq

inductive RecvResult
  | ok (buf : List Nat)
  | timeoutErr (raisedAt : ℚ)
  | valueErr
  | starved
deriving DecidableEq

/-- The `while b"\n" not in buf` loop of `_recv_with_deadline`: check for a
newline, raise `CCBTimeoutError` when the remaining time is gone, set the
per-recv timeout to `min(remaining, 1.0)`, recv; an empty chunk breaks
(connection closed, buffer returned), data is appended and the 16 MiB cap
raises `ValueError`.  `.starved` is a model artifact for running out of
scripted socket events. -/
def recvLoop (deadline : ℚ) (maxBytes : Nat) :
    List RecvEvent → ℚ → List Nat → RecvResult
  | evs, now, buf =>
    if (10 : Nat) ∈ buf then .ok buf
    else if deadline - now ≤ 0 then .timeoutErr now
    else
      match evs with
      | [] => .starved
      | ev :: rest =>
        let tmo := min (deadline - now) 1
        match ev with
        | .timedOut => recvLoop deadline maxBytes rest (now + tmo) buf
        | .delivered d chunk =>
          if chunk.isEmpty then .ok buf
          else
            let buf2 := buf ++ chunk
            if buf2.length > maxBytes then .valueErr
            else recvLoop deadline maxBytes rest (now + min (max d 0) tmo) buf2

/-- `_recv_with_deadline` entry point: empty buffer, default
`max_bytes = 16 * 1024 * 1024`. -/
def recv_with_deadline (evs : List RecvEvent) (start deadline : ℚ) : RecvResult :=
  recvLoop deadline (16 * 1024 * 1024) evs start []

theorem recvLoop_timeout_bounds (deadline : ℚ) (maxBytes : Nat)
    (evs : List RecvEvent) :
    ∀ (now : ℚ) (buf : List Nat) (t : ℚ), now ≤ deadline →
      recvLoop deadline maxBytes evs now buf = .timeoutErr t →
      deadline ≤ t ∧ t ≤ deadline + 1 := by
  induction evs with
  | nil =>
    intro now buf t hnow h
    rw [recvLoop] at h
    by_cases hb : (10 : Nat) ∈ buf
    · simp [hb] at h
    · by_cases hd : deadline - now ≤ 0
      · simp [hb, hd] at h
        have : deadline ≤ now := by linarith
        refine ⟨h ▸ this, by linarith [h]⟩
      · simp [hb, hd] at h
  | cons ev rest ih =>
    intro now buf t hnow h
    rw [recvLoop] at h
    by_cases hb : (10 : Nat) ∈ buf
    · simp [hb] at h
    · by_cases hd : deadline - now ≤ 0
      · simp [hb, hd] at h
        have : deadline ≤ now := by linarith
        refine ⟨h ▸ this, by linarith [h]⟩
      · have hrem : 0 < deadline - now := by linarith
        simp only [hb, hd, if_false, ite_false, if_neg] at h
        cases ev with
        | timedOut =>
          have hstep : now + min (deadline - now) 1 ≤ deadline := by
            have : min (deadline - now) 1 ≤ deadline - now := min_le_left _ _
            linarith
          exact ih _ _ _ hstep h
        | delivered d chunk =>
          by_cases hc : chunk.isEmpty
          · simp [hc] at h
          · simp only [hc, if_false, ite_false] at h
            by_cases hcap : (buf ++ chunk).length > maxBytes
            · rw [if_neg (by simp), if_pos hcap] at h
              simp at h
            · simp only [hcap, if_false, ite_false] at h
              have hstep : now + min (max d 0) (min (deadline - now) 1) ≤ deadline := by
                have h1 : min (max d 0) (min (deadline - now) 1) ≤
                    min (deadline - now) 1 := min_le_right _ _
                have h2 : min (deadline - now) 1 ≤ deadline - now := min_le_left _ _
                linarith
              exact ih _ _ _ hstep h

theorem recvLoop_ok_bound (deadline : ℚ) (maxBytes : Nat)
    (evs : List RecvEvent) :
    ∀ (now : ℚ) (buf : List Nat) (b : List Nat), buf.length ≤ maxBytes →
      recvLoop deadline maxBytes evs now buf = .ok b →
      b.length ≤ maxBytes := by
  induction evs with
  | nil =>
    intro now buf b hlen h
    rw [recvLoop] at h
    by_cases hb : (10 : Nat) ∈ buf
    · simp only [hb, if_true, ite_true, RecvResult.ok.injEq] at h
      exact h ▸ hlen
    · by_cases hd : deadline - now ≤ 0 <;> simp [hb, hd] at h
  | cons ev rest ih =>
    intro now buf b hlen h
    rw [recvLoop] at h
    by_cases hb : (10 : Nat) ∈ buf
    · simp only [hb, if_true, ite_true, RecvResult.ok.injEq] at h
      exact h ▸ hlen
    · by_cases hd : deadline - now ≤ 0
      · simp [hb, hd] at h
      · simp only [hb, hd, if_false, ite_false, if_neg] at h
        cases ev with
        | timedOut => exact ih _ _ _ hlen h
        | delivered d chunk =>
          by_cases hc : chunk.isEmpty
          · simp only [hc, if_true, ite_true, RecvResult.ok.injEq] at h
            exact h ▸ hlen
          · simp only [hc, if_false, ite_false] at h
            by_cases hcap : (buf ++ chunk).length > maxBytes
            · rw [if_neg (by simp), if_pos hcap] at h
              simp at h
            · simp only [hcap, if_false, ite_false] at h
              exact ih _ _ _ (by omega) h

/-- C8: on a socket that never completes a line, `_recv_with_deadline`
raises its timeout error no earlier than the deadline and at most one
second past it (each per-recv timeout being `min(remaining, 1.0)`); and
any buffer it returns is at most the 16 MiB cap — a chunk that would
exceed the cap makes the call raise `ValueError` (`.valueErr`) instead of
returning, as the loop checks the cap immediately after appending. -/
theorem recv_with_deadline_bounds :
    (∀ (evs : List RecvEvent) (start deadline t : ℚ), start ≤ deadline →
      recv_with_deadline evs start deadline = .timeoutErr t →
      deadline ≤ t ∧ t ≤ deadline + 1) ∧
    (∀ (evs : List RecvEvent) (start deadline : ℚ) (b : List Nat),
      recv_with_deadline evs start deadline = .ok b →
      b.length ≤ 16 * 1024 * 1024) := by
  constructor
  · intro evs start deadline t hsd h
    exact recvLoop_timeout_bounds deadline _ evs start [] t hsd h
  · intro evs start deadline b h
    exact recvLoop_ok_bound deadline _ evs start [] b (by simp) h

/-- Witness for C8: two full one-second socket timeouts against a deadline
of 3/2 seconds; the loop raises exactly at the deadline, within the
claimed window. -/
theorem recv_with_deadline_bounds_witness :
    ((0 : ℚ) ≤ 3 / 2) ∧
    recv_with_deadline [.timedOut, .timedOut] 0 (3 / 2) = .timeoutErr (3 / 2) ∧
    ((3 : ℚ) / 2 ≤ 3 / 2 ∧ (3 : ℚ) / 2 ≤ 3 / 2 + 1) := by
  have hrun : recv_with_deadline [.timedOut, .timedOut] 0 (3 / 2) =
      .timeoutErr (3 / 2) := by
    rw [recv_with_deadline, recvLoop]
    norm_num
    rw [recvLoop]
    norm_num
    rw [recvLoop]
    norm_num
  exact ⟨by norm_num, hrun,
    recv_with_deadline_bounds.1 [.timedOut, .timedOut] 0 (3 / 2) (3 / 2)
      (by norm_num) hrun⟩

/-! ### Autoloop supervisor evaluation (C9)

src/claude_skills/tr/scripts/autoloop.py `_run_once_locked` (lines
328-380), `_trigger` (lines 310-315) and `_has_remaining_work` (lines
283-300).  The JSON files are modelled by their parsed shapes: `state`
is `none` when `state.json` is missing or falsy, the saved record's
`last_cursor`/`last_trigger_ts` come pre-parsed (`_cursor_from_json` /
`int(... or 0)`), `usage` is the value of `get_context_percent` (it only
reads the file system), and the two `int(time.time())` calls are `now`
(cooldown check) and `now2` (persist after the trigger). -/

/-- `Cursor` dataclass: `type`, `stepIndex`, `subIndex`. -/
structure CursorM where
  ctype : String
  stepIndex : Option Int
  subIndex : Option Int
deriving DecidableEq, Repr

structure SubstepM where
  status : String
deriving DecidableEq, Repr

structure StepM where
  status : String
  substeps : Option (List SubstepM)
deriving DecidableEq, Repr

/-- Parsed `state.json`: the `current` cursor and the `steps` array
(`none` when `steps` is not a list; non-dict entries, which the code
skips, are not represented). -/
structure StateJsonM where
  current : CursorM
  steps : Option (List StepM)
deriving DecidableEq, Repr

/-- Parsed `autoloop_state.json` as written by the supervisor. -/
structure SavedRecordM where
  lastCursor : Option CursorM
  taskComplete : Bool
  lastTriggerTs : Int
deriving DecidableEq, Repr

def statusActive (s : String) : Bool := s = "todo" || s = "doing"

/-- autoloop.py `_has_remaining_work`: false when the cursor type is
`none`; true when `steps` is not a list; else true iff some step or some
substep has status `todo` or `doing`. -/
def hasRemainingWork (st : StateJsonM) : Bool :=
  if st.current.ctype = "none" then false
  else
    match st.steps with
    | none => true
    | some steps =>
      steps.any fun step =>
        statusActive step.status ||
        (match step.substeps with
         | some subs => subs.any fun sub => statusActive sub.status
         | none => false)

/-- The caller-pane injections and sleeps performed by `_trigger`. -/
inductive AutoAction
  | sleepSec (n : Int)
  | injectClear
  | injectTr
deriving DecidableEq, Repr

/-- autoloop.py `_trigger` (lines 310-315): sleep 5 s; when clearing,
inject `/clear` and sleep 2 s; inject `/tr`. -/
def triggerActions (doClear : Bool) : List AutoAction :=
  [.sleepSec 5] ++ (if doClear then [.injectClear, .sleepSec 2] else []) ++
    [.injectTr]

/-- Result of one evaluation: the exit code, a condensed form of the
summary's `status`/`reason`, the pane actions performed and the record
written to `autoloop_state.json` (if any). -/
structure RunOutcome where
  code : Int
  status : String
  actions : List AutoAction
  written : Option SavedRecordM
deriving DecidableEq, Repr

/-- autoloop.py `_run_once_locked` (lines 328-380), in source order:
no (truthy) state → noop; no pane id → exit 1 fail; cursor type `none`
or no remaining work → record task complete (keeping the old trigger
timestamp) and stop; cooldown not yet elapsed → noop; decide
`should_trigger` (no stored cursor → `trigger_on_missing_state`, else
cursor ≠ stored cursor); when not triggering persist the cursor with
`task_complete false` and the old timestamp; when triggering compute
`do_clear = usage > threshold`, run `_trigger`, persist the cursor with
`last_trigger_ts = now2`. -/
def runOnceLocked (state : Option StateJsonM) (paneId : Option String)
    (lastCursor : Option CursorM) (lastTs : Int) (now now2 : Int)
    (usage threshold cooldown_s : Int) (triggerOnMissing : Bool) :
    RunOutcome :=
  match state with
  | none => ⟨0, "noop: no state.json", [], none⟩
  | some st =>
    if paneId.isNone then ⟨1, "fail: no pane_id", [], none⟩
    else
      let cursor := st.current
      if cursor.ctype = "none" then
        ⟨0, "ok: task complete", [], some ⟨some cursor, true, lastTs⟩⟩
      else if !hasRemainingWork st then
        ⟨0, "ok: task complete", [], some ⟨some cursor, true, lastTs⟩⟩
      else if now - lastTs < cooldown_s then
        ⟨0, "noop: cooldown", [], none⟩
      else
        let shouldTrigger :=
          match lastCursor with
          | none => triggerOnMissing
          | some lc => decide (cursor ≠ lc)
        if !shouldTrigger then
          ⟨0, "noop: cursor unchanged", [], some ⟨some cursor, false, lastTs⟩⟩
        else
          let doClear := usage > threshold
          ⟨0, "triggered", triggerActions doClear,
            some ⟨some cursor, false, now2⟩⟩

/-- C9 counterexample: an evaluation with `state.json` present, work
remaining, cooldown elapsed and a stored cursor different from the
current one does NOT trigger when no pane id is resolvable — the run
fails with exit code 1 and no actions, refuting "triggers iff the cursor
differs" as stated. -/
theorem autoloop_no_pane_blocks_trigger :
    runOnceLocked
      (some ⟨⟨"step", some 0, some 1⟩, some [⟨"doing", none⟩]⟩) none
      (some ⟨"step", some 0, some 0⟩) 0 100 105 82 70 20 false =
      ⟨1, "fail: no pane_id", [], none⟩ ∧
    (⟨"step", some 0, some 1⟩ : CursorM) ≠ ⟨"step", some 0, some 0⟩ ∧
    (runOnceLocked
      (some ⟨⟨"step", some 0, some 1⟩, some [⟨"doing", none⟩]⟩) none
      (some ⟨"step", some 0, some 0⟩) 0 100 105 82 70 20 false).actions = [] := by
  refine ⟨rfl, by decide, rfl⟩

/-- C9 amended: under the extra, code-imposed premise that a pane id for
the caller is resolvable, an evaluation with (truthy) `state.json`, work
remaining, elapsed cooldown and a stored prior cursor triggers iff the
current cursor differs from the stored one; a trigger sleeps 5 s, injects
`/clear` followed by a 2 s sleep exactly when the usage percent exceeds
the threshold, then injects `/tr`, and persists the current cursor with
`task_complete = false` and `last_trigger_ts = now`; an unchanged cursor
only re-persists the stored timestamp. -/
theorem autoloop_triggers_iff_cursor_moved
    (st : StateJsonM) (p : String) (lc : CursorM) (lastTs now now2 : Int)
    (usage threshold cooldown_s : Int)
    (triggerOnMissing : Bool)
    (hwork : hasRemainingWork st = true)
    (hcool : cooldown_s ≤ now - lastTs) :
    ((runOnceLocked (some st) (some p) (some lc) lastTs now now2
        usage threshold cooldown_s triggerOnMissing).actions ≠ [] ↔
      st.current ≠ lc) ∧
    (st.current ≠ lc →
      runOnceLocked (some st) (some p) (some lc) lastTs now now2
          usage threshold cooldown_s triggerOnMissing =
        ⟨0, "triggered", triggerActions (usage > threshold),
          some ⟨some st.current, false, now2⟩⟩) ∧
    (st.current = lc →
      runOnceLocked (some st) (some p) (some lc) lastTs now now2
          usage threshold cooldown_s triggerOnMissing =
        ⟨0, "noop: cursor unchanged", [], some ⟨some st.current, false, lastTs⟩⟩) ∧
    (usage > threshold →
      triggerActions (usage > threshold) =
        [.sleepSec 5, .injectClear, .sleepSec 2, .injectTr]) ∧
    (usage ≤ threshold →
      triggerActions (usage > threshold) = [.sleepSec 5, .injectTr]) := by
  have hctype : st.current.ctype ≠ "none" := by
    intro e
    rw [hasRemainingWork, if_pos e] at hwork
    exact Bool.false_ne_true hwork
  have hnotcool : ¬(now - lastTs < cooldown_s) := not_lt.mpr hcool
  have hbase : ∀ b : Bool,
      runOnceLocked (some st) (some p) (some lc) lastTs now now2
          usage threshold cooldown_s b =
        (if !(decide (st.current ≠ lc)) then
          ⟨0, "noop: cursor unchanged", [], some ⟨some st.current, false, lastTs⟩⟩
        else
          ⟨0, "triggered", triggerActions (usage > threshold),
            some ⟨some st.current, false, now2⟩⟩) := by
    intro b
    rw [runOnceLocked]
    simp only [Option.isNone_some, Bool.false_eq_true, if_false, ite_false,
      if_neg hctype, hwork, Bool.not_true, if_neg hnotcool]
  by_cases hne : st.current ≠ lc
  · refine ⟨?_, ?_, ?_, ?_, ?_⟩
    · rw [hbase, if_neg (by simp [hne])]
      constructor
      · intro _; exact hne
      · intro _
        simp [triggerActions]
    · intro _
      rw [hbase, if_neg (by simp [hne])]
    · intro he; exact absurd he hne
    · intro hcl; simp [triggerActions, hcl]
    · intro hcl; simp [triggerActions, not_lt.mpr hcl]
  · push_neg at hne
    refine ⟨?_, ?_, ?_, ?_, ?_⟩
    · rw [hbase, if_pos (by simp [hne])]
      simp [hne]
    · intro he; exact absurd hne he
    · intro _
      rw [hbase, if_pos (by simp [hne])]
    · intro hcl; simp [triggerActions, hcl]
    · intro hcl; simp [triggerActions, not_lt.mpr hcl]

/-- Witness for the amended C9 at the spec's scenario S6: cursor moved
from substep 0 to substep 1, usage 82 over threshold 70 — the run
triggers with `/clear`, the 2 s sleep and `/tr`, and persists
`last_trigger_ts = now`. -/
theorem autoloop_triggers_iff_cursor_moved_witness :
    hasRemainingWork ⟨⟨"step", some 0, some 1⟩, some [⟨"doing", none⟩]⟩ = true ∧
    ((20 : Int) ≤ 100 - 0) ∧
    runOnceLocked (some ⟨⟨"step", some 0, some 1⟩, some [⟨"doing", none⟩]⟩)
        (some "pane7") (some ⟨"step", some 0, some 0⟩) 0 100 105 82 70 20 false =
      ⟨0, "triggered", [.sleepSec 5, .injectClear, .sleepSec 2, .injectTr],
        some ⟨some ⟨"step", some 0, some 1⟩, false, 105⟩⟩ := by
  refine ⟨by decide, by norm_num, ?_⟩
  have h := (autoloop_triggers_iff_cursor_moved
      ⟨⟨"step", some 0, some 1⟩, some [⟨"doing", none⟩]⟩ "pane7"
      ⟨"step", some 0, some 0⟩ 0 100 105 82 70 20 false
      (by decide) (by norm_num)).2.1 (by decide)
  rw [h]
  norm_num [triggerActions]

end CCB
